import Mathlib

/-!
# TaxTrack NG - verification of the extraction pipeline, calculators and ledger

A shallow embedding of the TaxTrack NG browser application (files `app.js`,
`dashboard.js` and the two unnamed near-duplicate variants).  JavaScript
numbers are modelled as exact rationals (`ℚ`); all the concrete scenarios
proved below involve only computations on which IEEE-754 doubles and exact
rationals agree.  JavaScript strings are modelled as Lean `String`s, with the
string operations of the source (`split`, `trim`, `replace`, `match`,
`parseFloat`, `toLowerCase`, …) re-implemented over the character list so
that every definition is executable.

Environment-supplied values that the source obtains from the runtime
(`Date.now()`-based ids, the current date, `toLocaleString` formatting) are
taken as explicit parameters, since they are inputs of the computation, not
part of it.  The `Infinity` literal accepted by JavaScript `parseFloat` is
not modelled; no claim involves it.
-/

namespace TaxTrack

/-! ## JavaScript primitives -/

/-- Whitespace as matched by JavaScript `trim`, the regexp class `\s`, and
`parseFloat`'s leading-whitespace skip (ASCII part; no claim involves the
Unicode spaces). -/
def jsIsSpace (c : Char) : Bool :=
  c = ' ' || c = '\t' || c = '\n' || c = '\r' || c = '\x0b' || c = '\x0c'

/-- Numeric value of a decimal digit character. -/
def digitVal (c : Char) : ℕ := c.toNat - 48

/-- Value of a string of decimal digits. -/
def digitsToNat (ds : List Char) : ℕ :=
  ds.foldl (fun n c => 10 * n + digitVal c) 0

/-- The exponent suffix accepted by JavaScript `parseFloat` (`e`/`E`,
optional sign, digits); a malformed suffix is ignored, i.e. contributes
exponent 0. -/
def parseExp (l : List Char) : ℤ :=
  match l with
  | 'e' :: r | 'E' :: r =>
    let p : ℤ × List Char :=
      match r with
      | '-' :: t => (-1, t)
      | '+' :: t => (1, t)
      | _ => (1, r)
    let ds := p.2.takeWhile Char.isDigit
    if ds.isEmpty then 0 else p.1 * (digitsToNat ds : ℤ)
  | _ => 0

/-- JavaScript `parseFloat`: skip leading whitespace, then parse the longest
prefix of the form `[+-]? digits [. digits]? ([eE][+-]?digits)?`; `none`
models the `NaN` result produced when no digit appears in the mantissa. -/
def jsParseFloat (s : String) : Option ℚ :=
  let l := s.data.dropWhile jsIsSpace
  let p : ℚ × List Char :=
    match l with
    | '-' :: t => (-1, t)
    | '+' :: t => (1, t)
    | _ => (1, l)
  let ip := p.2.takeWhile Char.isDigit
  let l2 := p.2.dropWhile Char.isDigit
  let q : List Char × List Char :=
    match l2 with
    | '.' :: t => (t.takeWhile Char.isDigit, t.dropWhile Char.isDigit)
    | _ => ([], l2)
  if ip.isEmpty && q.1.isEmpty then none
  else
    some (p.1 * ((digitsToNat ip : ℚ) + (digitsToNat q.1 : ℚ) / 10 ^ q.1.length) * 10 ^ parseExp q.2)

/-- JavaScript `Number(s)` as used in `part_000` on the strings produced by
its amount regexp.  Those strings are complete numeric literals, on which
`Number` and `parseFloat` agree; `Number('') = 0` is the `getD 0` default. -/
def jsNumber (s : String) : ℚ := (jsParseFloat s).getD 0

/-- JavaScript `Math.round`: round to the nearest integer, halves toward
positive infinity, i.e. `⌊x + 1/2⌋`. -/
def jsRound (x : ℚ) : ℤ := ⌊x + 1 / 2⌋

/-- JavaScript `s.split(sep)` for a one-character separator, over character
lists.  Like the source's `split('\n')` and `split(',')` it keeps empty
pieces. -/
def splitOnChar (sep : Char) : List Char → List (List Char)
  | [] => [[]]
  | c :: rest =>
    if c = sep then [] :: splitOnChar sep rest
    else
      match splitOnChar sep rest with
      | [] => [[c]]
      | h :: t => (c :: h) :: t

/-- JavaScript `s.split(sep)` for a one-character separator. -/
def jsSplit (sep : Char) (s : String) : List String :=
  (splitOnChar sep s.data).map List.asString

/-- JavaScript `s.toLowerCase()` (ASCII part). -/
def jsToLower (s : String) : String := (s.data.map Char.toLower).asString

/-- JavaScript `s.trim()`. -/
def jsTrim (s : String) : String :=
  (((s.data.dropWhile jsIsSpace).reverse.dropWhile jsIsSpace).reverse).asString

/-- JavaScript `s.substring(0, n)`. -/
def jsTake (n : ℕ) (s : String) : String := (s.data.take n).asString

/-- Whether `needle` occurs as a contiguous substring, as JavaScript
`hay.includes(needle)` and the regexp test for a literal token. -/
def containsSeq (needle : List Char) : List Char → Bool
  | [] => needle.isEmpty
  | c :: rest => needle.isPrefixOf (c :: rest) || containsSeq needle rest

/-- JavaScript `hay.includes(needle)`. -/
def jsIncludes (hay needle : String) : Bool := containsSeq needle.data hay.data

/-- JavaScript `s.replace(pat, '')` with a string pattern: remove the first
occurrence of `pat` (a no-op when `pat` does not occur). -/
def removeFirstAux (pat : List Char) : List Char → List Char
  | [] => []
  | c :: rest =>
    if pat.isPrefixOf (c :: rest) then (c :: rest).drop pat.length
    else c :: removeFirstAux pat rest

/-- JavaScript `s.replace(pat, '')` with a string pattern. -/
def removeFirst (s pat : String) : String := (removeFirstAux pat.data s.data).asString

/-- JavaScript `s.replace(/,/g, '')`: delete every comma. -/
def removeCommas (s : String) : String := (s.data.filter (fun c => c != ',')).asString

/-- Word characters of the JavaScript regexp class `\w`: ASCII letters,
digits and underscore. -/
def isWordChar (c : Char) : Bool := c.isAlpha || c.isDigit || c = '_'

/-- JavaScript `s.replace(/[^\w\s]/g, ' ')`: every character that is neither
a word character nor whitespace becomes a space. -/
def replaceNonWord (s : String) : String :=
  (s.data.map (fun c => if isWordChar c || jsIsSpace c then c else ' ')).asString

/-- Helper for `collapseWs`: the flag records whether the previous character
was whitespace (so the current run has already emitted its single space). -/
def collapseWsAux : Bool → List Char → List Char
  | _, [] => []
  | prev, c :: rest =>
    if jsIsSpace c then
      if prev then collapseWsAux true rest else ' ' :: collapseWsAux true rest
    else c :: collapseWsAux false rest

/-- JavaScript `s.replace(/\s+/g, ' ')`: collapse every whitespace run to a
single space. -/
def collapseWs (s : String) : String := (collapseWsAux false s.data).asString

/-! ## Tax calculators (`app.js`) -/

/-- Result record of `TaxTrackApp.calculatePAYE`. -/
structure PayeResult where
  grossIncome : ℚ
  totalReliefs : ℚ
  taxableIncome : ℚ
  annualTax : ℤ
  monthlyTax : ℤ
deriving DecidableEq, Repr

/-- The progressive Nigerian PAYE band schedule of `calculatePAYE`
(`app.js` lines 310-325), including its `taxable > 0` guard. -/
def payeBandTax (taxable : ℚ) : ℚ :=
  if 0 < taxable then
    if taxable ≤ 300000 then taxable * 0.07
    else if taxable ≤ 600000 then 21000 + (taxable - 300000) * 0.11
    else if taxable ≤ 1100000 then 54000 + (taxable - 600000) * 0.15
    else if taxable ≤ 1600000 then 129000 + (taxable - 1100000) * 0.19
    else if taxable ≤ 3200000 then 224000 + (taxable - 1600000) * 0.21
    else 560000 + (taxable - 3200000) * 0.24
  else 0

/-- `TaxTrackApp.calculatePAYE` (`app.js` lines 299-334).  The reliefs
record's three numeric fields are taken as rationals (`Number(x) || 0`
coercion already applied). -/
def calculatePAYE (grossIncome pension nhf other : ℚ) : PayeResult :=
  let standardRelief := 200000 + grossIncome * 0.2
  let totalReliefs := pension + nhf + other + standardRelief
  let taxable := max (grossIncome - totalReliefs) 0
  let tax := payeBandTax taxable
  { grossIncome := grossIncome
    totalReliefs := totalReliefs
    taxableIncome := taxable
    annualTax := jsRound tax
    monthlyTax := jsRound (tax / 12) }

/-- `TaxTrackApp.calculateVAT` (`app.js` lines 336-338):
`Math.round(amount * 0.075 * 100) / 100`. -/
def calculateVAT (amount : ℚ) : ℚ := (jsRound (amount * 0.075 * 100) : ℚ) / 100

/-! ## Transaction ledger (`app.js`) -/

/-- A stored ledger record, as built by `TaxTrackApp.addTransaction`. -/
structure Transaction where
  id : String
  date : String
  type : String
  amount : ℚ
  details : String
  createdAt : String
deriving DecidableEq, Repr

/-- The caller-supplied part of an `addTransaction` argument. -/
structure TxInput where
  date : Option String
  type : String
  amount : ℚ
  details : String
deriving DecidableEq, Repr

/-- One invocation of `addTransaction` together with the runtime-supplied
values: the generated id, today's date string, and the `createdAt`
timestamp. -/
structure AddCall where
  freshId : String
  today : String
  now : String
  input : TxInput
deriving DecidableEq, Repr

/-- `TaxTrackApp.addTransaction` (`app.js` lines 189-202): build the stored
record and push it at the end of the list.  `Number(transaction.amount)` is
the identity on the already-numeric model. -/
def addTransaction (call : AddCall) (txs : List Transaction) : List Transaction :=
  txs ++ [{ id := call.freshId
            date := call.input.date.getD call.today
            type := call.input.type
            amount := call.input.amount
            details := call.input.details
            createdAt := call.now }]

/-- A sequence of `addTransaction` calls applied in order. -/
def runAdds (calls : List AddCall) (txs : List Transaction) : List Transaction :=
  calls.foldl (fun acc c => addTransaction c acc) txs

/-- `TaxTrackApp.deleteTransaction` (`app.js` lines 204-207):
`this.transactions.filter(tx => tx.id !== id)`. -/
def deleteTransaction (id : String) (txs : List Transaction) : List Transaction :=
  txs.filter (fun tx => tx.id != id)

/-! ## CSV import adapter (`dashboard.js`, `processCSV`) -/

/-- Field preprocessing of `processCSV`: `c.trim().replace(/"/g, '')`. -/
def csvCell (s : String) : String := ((jsTrim s).data.filter (fun c => c != '"')).asString

/-- The numeric reading of a column:
`parseFloat(col.replace(/[₦,]/g, ''))`. -/
def cellNum (col : String) : Option ℚ :=
  jsParseFloat ((col.data.filter (fun c => c != '₦' && c != ',')).asString)

/-- One step of `processCSV`'s column scan (`dashboard.js` lines 96-100).
The accumulator is the current `(amount, details)` pair, initially
`(0, "")`.  A `none` reading is `NaN`, so `!isNaN(numVal)` fails and
`!numVal` holds; a `some 0` reading is falsy, so `!numVal` also holds. -/
def csvStep (acc : ℚ × String) (col : String) : ℚ × String :=
  match cellNum col with
  | some v =>
    if 0 < v ∧ acc.1 = 0 then (v, acc.2)
    else if col ≠ "" ∧ v = 0 ∧ 2 < col.length then (acc.1, col)
    else acc
  | none =>
    if col ≠ "" ∧ 2 < col.length then (acc.1, col)
    else acc

/-- The full column scan of a CSV row. -/
def scanCols (cols : List String) : ℚ × String := cols.foldl csvStep (0, "")

/-- `processCSV` (`dashboard.js` lines 84-114), modelled on the file's text:
the list of `addTransaction` inputs it commits, in order.  An empty
line-list makes the source throw on `lines[0]` inside its `try`, committing
nothing. -/
def processCSV (fileName text : String) : List TxInput :=
  match (jsSplit '\n' text).filter (fun l => jsTrim l ≠ "") with
  | [] => []
  | l0 :: rest =>
    let startRows :=
      if jsIncludes (jsToLower l0) "date" || jsIncludes (jsToLower l0) "amount" then rest
      else l0 :: rest
    startRows.filterMap (fun line =>
      let cols := (jsSplit ',' line).map csvCell
      if 2 ≤ cols.length then
        let p := scanCols cols
        if 0 < p.1 then
          some { date := none
                 type := "VAT"
                 amount := calculateVAT p.1
                 details := if p.2 ≠ "" then p.2 else "CSV Import: " ++ fileName }
        else none
      else none)

/-! ## Receipt extraction pipeline (`dashboard.js`, `processReceiptWithOCR`) -/

/-- A Candidate Line (the pipeline-local id, which the source builds from
`Math.random()`, is environment-supplied noise and carries no data the
claims mention, so it is omitted). -/
structure Candidate where
  type : String
  amount : ℚ
  details : String
deriving DecidableEq, Repr

/-- Character class `[\d,]` of the amount regexp. -/
def isDC (c : Char) : Bool := c.isDigit || c = ','

/-- The `\.?\d{0,2}` tail of the amount regexp `[\d,]+\.?\d{0,2}`: an
optional dot followed by at most two digits (greedy), returned together
with the rest of the line. -/
def fracPart (l : List Char) : List Char × List Char :=
  match l with
  | [] => ([], [])
  | c :: t =>
    if c = '.' then
      let fd := (t.takeWhile Char.isDigit).take 2
      ('.' :: fd, t.drop fd.length)
    else ([], c :: t)

/-- Fuelled scan for `/[\d,]+\.?\d{0,2}/g`: scan left to right, at each
position starting with a digit or comma take the maximal `[\d,]+` run, then
the optional fraction; continue after the match.  The quantifiers never
backtrack because the continuation of the pattern is optional.  Every step
consumes at least one character, so fuel equal to the list length computes
the full scan. -/
def scanMatchesFuel : ℕ → List Char → List (List Char)
  | 0, _ => []
  | _, [] => []
  | fuel + 1, c :: rest =>
    if isDC c then
      (c :: (rest.takeWhile isDC ++ (fracPart (rest.dropWhile isDC)).1))
        :: scanMatchesFuel fuel (fracPart (rest.dropWhile isDC)).2
    else scanMatchesFuel fuel rest

/-- Global matching of `/[\d,]+\.?\d{0,2}/g` (`dashboard.js` line 146). -/
def scanMatches (l : List Char) : List (List Char) := scanMatchesFuel l.length l

/-- `line.match(/[\d,]+\.?\d{0,2}/g) || []` on a line. -/
def jsMatchNums (line : String) : List String := (scanMatches line.data).map List.asString

/-- The type classifier of `processReceiptWithOCR`
(`/vat|tax|excise|levy/i.test(line)`). -/
def vatTokensTest (line : String) : Bool :=
  jsIncludes (jsToLower line) "vat" || jsIncludes (jsToLower line) "tax" ||
    jsIncludes (jsToLower line) "excise" || jsIncludes (jsToLower line) "levy"

/-- The details cleanup of `processReceiptWithOCR` (`dashboard.js` line 151):
`line.replace(numStr, '').replace(/[^\w\s]/g, ' ').replace(/\s+/g, ' ')
.trim().substring(0, 50) || 'Receipt Item'`. -/
def ocrDetails (line numStr : String) : String :=
  let d := jsTake 50 (jsTrim (collapseWs (replaceNonWord (removeFirst line numStr))))
  if d = "" then "Receipt Item" else d

/-- The text-processing core of `processReceiptWithOCR` (`dashboard.js`
lines 142-170): split the recognized text into lines, extract every
matching numeric substring, parse it with commas removed, keep amounts in
`[100, 10000000]`, classify the line, and clean up the details. -/
def processReceiptWithOCR (text : String) : List Candidate :=
  (jsSplit '\n' text).flatMap (fun line =>
    (jsMatchNums line).filterMap (fun numStr =>
      match jsParseFloat (removeCommas numStr) with
      | some rawAmount =>
        if 100 ≤ rawAmount ∧ rawAmount ≤ 10000000 then
          some { type := if vatTokensTest line then "VAT" else "Consumption"
                 amount := rawAmount
                 details := ocrDetails line numStr }
        else none
      | none => none))

/-! ## Legacy receipt extraction (`part_000`, `processReceiptEditable`) -/

/-- The `\d{2,3}` head of the legacy amount regexp
`/(\d{2,3}(?:,\d{3})*(?:\.\d{2})?)/g`: three digits if available, else two,
else no match at this position. -/
def take3or2 (l : List Char) : Option (List Char × List Char) :=
  match l with
  | a :: b :: c :: rest =>
    if a.isDigit ∧ b.isDigit ∧ c.isDigit then some ([a, b, c], rest)
    else if a.isDigit ∧ b.isDigit then some ([a, b], c :: rest)
    else none
  | [a, b] => if a.isDigit ∧ b.isDigit then some ([a, b], []) else none
  | _ => none

/-- The `(?:,\d{3})*` groups of the legacy amount regexp: consume `,ddd`
blocks as long as they are complete. -/
def commaGroups (l : List Char) : List Char × List Char :=
  match l with
  | s :: a :: b :: c :: rest =>
    if s = ',' ∧ a.isDigit ∧ b.isDigit ∧ c.isDigit then
      (s :: a :: b :: c :: (commaGroups rest).1, (commaGroups rest).2)
    else ([], s :: a :: b :: c :: rest)
  | l => ([], l)

/-- The `(?:\.\d{2})?` tail of the legacy amount regexp: a dot followed by
exactly two digits, or nothing. -/
def fracExact2 (l : List Char) : List Char × List Char :=
  match l with
  | d :: a :: b :: rest =>
    if d = '.' ∧ a.isDigit ∧ b.isDigit then ([d, a, b], rest)
    else ([], d :: a :: b :: rest)
  | l => ([], l)

/-- Fuelled scan for the legacy `/(\d{2,3}(?:,\d{3})*(?:\.\d{2})?)/g`
(`part_000` line 117).  All quantifiers after the `\d{2,3}` head are
optional, so the head's greedy 3-then-2 choice never backtracks.  Every
step consumes at least one character, so fuel equal to the list length
computes the full scan. -/
def scanMatchesOldFuel : ℕ → List Char → List (List Char)
  | 0, _ => []
  | _, [] => []
  | fuel + 1, c :: rest =>
    match take3or2 (c :: rest) with
    | some p =>
      (p.1 ++ (commaGroups p.2).1 ++ (fracExact2 (commaGroups p.2).2).1)
        :: scanMatchesOldFuel fuel (fracExact2 (commaGroups p.2).2).2
    | none => scanMatchesOldFuel fuel rest

/-- Global matching of `/(\d{2,3}(?:,\d{3})*(?:\.\d{2})?)/g`. -/
def scanMatchesOld (l : List Char) : List (List Char) := scanMatchesOldFuel l.length l

/-- `line.match(/(\d{2,3}(?:,\d{3})*(?:\.\d{2})?)/g) || []` on a line. -/
def jsMatchNumsOld (line : String) : List String :=
  (scanMatchesOld line.data).map List.asString

/-- The type classifier of `processReceiptEditable` (`part_000` lines
122-124): `'Consumption'` unless `/vat|tax|excise/i` matches the line, with
a dead second chance (`rawAmount < 1000 && /vat|tax/i`) kept for
fidelity. -/
def oldTypeOf (line : String) (rawAmount : ℚ) : String :=
  if jsIncludes (jsToLower line) "vat" || jsIncludes (jsToLower line) "tax" ||
      jsIncludes (jsToLower line) "excise" then "VAT"
  else if rawAmount < 1000 ∧
      (jsIncludes (jsToLower line) "vat" || jsIncludes (jsToLower line) "tax") then "VAT"
  else "Consumption"

/-- The details of `processReceiptEditable` (`part_000` line 126):
`line.replace(numStr, '').trim() || 'Receipt Entry'`. -/
def oldDetails (line numStr : String) : String :=
  let d := jsTrim (removeFirst line numStr)
  if d = "" then "Receipt Entry" else d

/-- The text-processing core of `processReceiptEditable` (`part_000` lines
116-144): like `processReceiptWithOCR` but with the legacy regexp,
`Number` instead of `parseFloat`, only a positivity filter on the amount
(no `[100, 10000000]` range check), and no punctuation cleanup. -/
def processReceiptEditable (text : String) : List Candidate :=
  (jsSplit '\n' text).flatMap (fun line =>
    (jsMatchNumsOld line).filterMap (fun numStr =>
      let rawAmount := jsNumber (removeCommas numStr)
      if 0 < rawAmount then
        some { type := oldTypeOf line rawAmount
               amount := rawAmount
               details := oldDetails line numStr }
      else none))

/-! ## Confirm handler (`dashboard.js`, `confirmBtn` click listener) -/

/-- The state of one editable OCR preview row at confirm time: the checkbox
and the current (possibly user-edited) field values.  The amount is the raw
text of the number input, read by the source with `parseFloat`. -/
structure EditedLine where
  selected : Bool
  amountStr : String
  type : String
  details : String
deriving DecidableEq, Repr

/-- Whether a string parses to a strictly positive number, the guard
`amount > 0` of the confirm handler (false on `NaN`). -/
def parsesPositive (s : String) : Bool :=
  match jsParseFloat s with
  | some a => decide (0 < a)
  | none => false

/-- The body of the confirm-button handler's `forEach` (`dashboard.js`
lines 192-208) for one row: when the row is still selected and its edited
amount parses positive, emit one `addTransaction` input, applying the VAT
calculator and the base-amount annotation when the edited type is `VAT`.
`fmt` is the environment's `Number.prototype.toLocaleString`. -/
def confirmRow (fmt : ℚ → String) (l : EditedLine) : Option TxInput :=
  if l.selected then
    match jsParseFloat l.amountStr with
    | some amount =>
      if 0 < amount then
        some (if l.type = "VAT" then
                { date := none
                  type := l.type
                  amount := calculateVAT amount
                  details := l.details ++ " (Base: ₦" ++ fmt amount ++ ")" }
              else
                { date := none
                  type := l.type
                  amount := amount
                  details := l.details })
      else none
    | none => none
  else none

/-- The confirm-button handler (`dashboard.js` lines 189-221): the
`addTransaction` inputs committed for the given preview rows, in order. -/
def confirmLines (fmt : ℚ → String) (lines : List EditedLine) : List TxInput :=
  lines.filterMap (confirmRow fmt)

/-! ## Definitions taken from the specification's wording

The remaining definitions transcribe the *claims'* phrasing (not the
source); each is compared against the corresponding source-derived
definition in the theorems below. -/

/-- Claimed rounding of the VAT formula: `round(x, 2dp)`. -/
def roundTo2dp (x : ℚ) : ℚ := (jsRound (x * 100) : ℚ) / 100

/-- Claimed details cleanup (claim C8's wording): remove the matched
substring, *strip* (delete) every character that is neither alphanumeric
nor a space, collapse whitespace runs, trim, truncate to 50 characters, and
substitute the placeholder whenever the result is empty or shorter than 3
characters. -/
def ocrDetailsSpec (line numStr : String) : String :=
  let d := jsTake 50 (jsTrim (collapseWs
    (((removeFirst line numStr).data.filter (fun c => c.isAlphanum || c = ' ')).asString)))
  if d = "" ∨ d.length < 3 then "Receipt Item" else d

/-- Whether a column parses as a strictly positive number after stripping
`₦` and commas. -/
def colIsAmount (col : String) : Bool :=
  match cellNum col with
  | some v => decide (0 < v)
  | none => false

/-- The claimed amount selection of the CSV scan (claim C5's wording, which
matches the source): the value of the first column that parses as a
strictly positive number after stripping `₦` and commas. -/
def firstAmount (cols : List String) : ℚ :=
  match cols.find? colIsAmount with
  | some col => (cellNum col).getD 0
  | none => 0

/-- Eligibility of a column for the `details` slot in the source's scan:
non-empty, falsy numeric reading (`NaN` or `0`), and longer than 2
characters. -/
def detailEligible (col : String) : Bool :=
  (col != "") && (match cellNum col with
                  | some v => decide (v = 0)
                  | none => true) && decide (2 < col.length)

/-- The details selection the source actually performs: the *last* eligible
column (each eligible column overwrites the previous one). -/
def lastDetail (cols : List String) : String :=
  ((cols.filter detailEligible).getLast?).getD ""

/-- The claimed details selection (claim C5's wording): the *first* column
that is non-numeric (parses to `NaN`) and longer than 2 characters. -/
def specFirstDetail (cols : List String) : String :=
  ((cols.filter (fun col => (cellNum col).isNone && decide (2 < col.length))).head?).getD ""

/-! ## Helper lemmas -/

@[simp] lemma data_asString (l : List Char) : l.asString.data = l := rfl

@[simp] lemma digitVal_0 : digitVal '0' = 0 := rfl

@[simp] lemma digitVal_1 : digitVal '1' = 1 := rfl

@[simp] lemma digitVal_2 : digitVal '2' = 2 := rfl

@[simp] lemma digitVal_3 : digitVal '3' = 3 := rfl

@[simp] lemma digitVal_4 : digitVal '4' = 4 := rfl

@[simp] lemma digitVal_5 : digitVal '5' = 5 := rfl

@[simp] lemma digitVal_6 : digitVal '6' = 6 := rfl

@[simp] lemma digitVal_7 : digitVal '7' = 7 := rfl

@[simp] lemma digitVal_8 : digitVal '8' = 8 := rfl

@[simp] lemma digitVal_9 : digitVal '9' = 9 := rfl

lemma calculatePAYE_annualTax_eq (g p n o : ℚ) :
    (calculatePAYE g p n o).annualTax =
      jsRound (payeBandTax (max (g - (p + n + o + (200000 + g * 0.2))) 0)) := rfl

lemma jsRound_mono {x y : ℚ} (h : x ≤ y) : jsRound x ≤ jsRound y :=
  Int.floor_le_floor (by linarith)

lemma payeBandTax_mono {a b : ℚ} (h : a ≤ b) : payeBandTax a ≤ payeBandTax b := by
  unfold payeBandTax
  split_ifs <;> linarith

lemma length_filterMap_eq {α β : Type} (f : α → Option β) (l : List α) :
    (l.filterMap f).length = (l.filter (fun a => (f a).isSome)).length := by
  induction l with
  | nil => rfl
  | cons a l ih =>
    rcases h : f a with - | b <;> simp [List.filterMap_cons, List.filter_cons, h, ih]

lemma filterMap_filter_of_isSome {α β : Type} (f : α → Option β) (p : α → Bool) (l : List α)
    (h : ∀ a, (f a).isSome → p a) :
    l.filterMap f = (l.filter p).filterMap f := by
  induction l with
  | nil => rfl
  | cons a l ih =>
    rcases hf : f a with - | b
    · by_cases hp : p a
      · simp [List.filterMap_cons, List.filter_cons, hf, hp, ih]
      · simp [List.filterMap_cons, List.filter_cons, hf, hp, ih]
    · have hp : p a := h a (by simp [hf])
      simp [List.filterMap_cons, List.filter_cons, hf, hp, ih]

lemma confirmRow_isSome (fmt : ℚ → String) (l : EditedLine) :
    (confirmRow fmt l).isSome = (l.selected && parsesPositive l.amountStr) := by
  unfold confirmRow parsesPositive
  by_cases hsel : l.selected
  · rcases hp : jsParseFloat l.amountStr with - | a
    · simp [hsel, hp]
    · by_cases hpos : 0 < a <;> simp [hsel, hp, hpos]
  · simp [hsel]

lemma csvStep_eq (acc : ℚ × String) (col : String) :
    csvStep acc col =
      (if colIsAmount col ∧ acc.1 = 0 then (cellNum col).getD 0 else acc.1,
       if detailEligible col then col else acc.2) := by
  rcases h : cellNum col with - | v
  · simp only [csvStep, h, colIsAmount, detailEligible]
    by_cases h1 : col = "" <;> by_cases h2 : 2 < col.length <;>
      simp [h1, h2, h, Prod.ext_iff]
  · simp only [csvStep, h, colIsAmount, detailEligible]
    by_cases hz : v = 0
    · subst hz
      by_cases hacc : acc.1 = 0 <;> by_cases h1 : col = "" <;> by_cases h2 : 2 < col.length <;>
        simp [hacc, h1, h2, h, Prod.ext_iff]
    · by_cases hpos : 0 < v
      · by_cases hacc : acc.1 = 0 <;> by_cases h1 : col = "" <;> by_cases h2 : 2 < col.length <;>
          simp [hpos, hz, hacc, h1, h2, h, Prod.ext_iff]
      · by_cases hacc : acc.1 = 0 <;> by_cases h1 : col = "" <;> by_cases h2 : 2 < col.length <;>
          simp [hpos, hz, hacc, h1, h2, h, Prod.ext_iff]

lemma getLastD_cons {α : Type} (x : α) (l : List α) (d : α) :
    ((x :: l).getLast?).getD d = (l.getLast?).getD x := by
  cases l with
  | nil => rfl
  | cons y t =>
    rw [List.getLast?_cons_cons]
    obtain ⟨z, hz⟩ := Option.isSome_iff_exists.mp
      (by simp [List.getLast?_isSome] : (y :: t).getLast?.isSome = true)
    simp [hz]

lemma colIsAmount_not_detailEligible {col : String} (h : colIsAmount col = true) :
    detailEligible col = false := by
  unfold colIsAmount at h
  unfold detailEligible
  rcases hc : cellNum col with - | v
  · rw [hc] at h
    exact absurd h (by simp)
  · rw [hc] at h
    have hv : 0 < v := by simpa using h
    simp [hc, hv.ne.symm]

lemma scanCols_go (cols : List String) (a : ℚ) (d : String) :
    cols.foldl csvStep (a, d) =
      ((if a = 0 then firstAmount cols else a),
       ((cols.filter detailEligible).getLast?).getD d) := by
  induction cols generalizing a d with
  | nil => by_cases h : a = 0 <;> simp [firstAmount, h]
  | cons c cs ih =>
    rw [List.foldl_cons, csvStep_eq]
    by_cases hAmt : colIsAmount c = true
    · have hne : detailEligible c = false := colIsAmount_not_detailEligible hAmt
      by_cases hacc : a = 0
      · have hpos : (0 : ℚ) < (cellNum c).getD 0 := by
          unfold colIsAmount at hAmt
          rcases hc : cellNum c with - | v
          · rw [hc] at hAmt
            exact absurd hAmt (by simp)
          · rw [hc] at hAmt
            simpa using hAmt
        rw [ih]
        have h1 : firstAmount (c :: cs) = (cellNum c).getD 0 := by
          simp [firstAmount, List.find?_cons, hAmt]
        simp [hacc, hAmt, hne, List.filter_cons, h1, hpos.ne.symm]
      · rw [ih]
        simp [hacc, hne, List.filter_cons]
    · by_cases hel : detailEligible c = true
      · rw [ih]
        have h2 : firstAmount (c :: cs) = firstAmount cs := by
          simp [firstAmount, List.find?_cons, hAmt]
        simp [hAmt, hel, List.filter_cons, h2, getLastD_cons]
      · rw [ih]
        have h2 : firstAmount (c :: cs) = firstAmount cs := by
          simp [firstAmount, List.find?_cons, hAmt]
        simp [hAmt, hel, List.filter_cons, h2]

/-! ## Claim C1 -/

/-- Claim C1: for `grossIncome = 1000000` and zero reliefs, `calculatePAYE`
returns `totalReliefs = 400000`, `taxableIncome = 600000` and
`annualTax = 54000`, the exact cumulative tax at the 600,000 band boundary
of the progressive schedule. -/
theorem C1_paye_boundary_case :
    (calculatePAYE 1000000 0 0 0).totalReliefs = 400000 ∧
    (calculatePAYE 1000000 0 0 0).taxableIncome = 600000 ∧
    (calculatePAYE 1000000 0 0 0).annualTax = 54000 := by
  norm_num [calculatePAYE, payeBandTax, jsRound]

/-! ## Claim C2 -/

/-- Claim C2, counterexample: on the CSV row
`2024-01-01, 5000.50, "Fuel purchase"` the committed transaction's amount
is `calculateVAT 2024 = 151.8`, not the claimed `375.04`: the date field is
scanned first and its prefix `2024` parses as a positive number, so it —
not `5000.50` — becomes the base amount. -/
theorem C2_csv_scenario_counterexample :
    processCSV "report.csv" "2024-01-01, 5000.50, \"Fuel purchase\"" =
      [{ date := none, type := "VAT", amount := 151.8, details := "Fuel purchase" }] ∧
    (151.8 : ℚ) ≠ 375.04 := by
  constructor
  · norm_num +decide [processCSV, jsSplit, splitOnChar, jsTrim, jsIsSpace, jsIncludes,
      containsSeq, jsToLower, csvCell, scanCols, csvStep, cellNum, jsParseFloat, parseExp,
      digitsToNat, calculateVAT, jsRound, List.filterMap, Function.comp]
  · norm_num

/-- Claim C2, amended: for every non-negative amount,
`calculateVAT amount = round(amount * 0.075, 2dp)` and `calculateVAT 0 = 0`;
for the CSV row `2024-01-01, 5000.50, "Fuel purchase"` the committed
transaction has type `VAT` but amount `calculateVAT 2024 = 151.8`, because
the date field's numeric prefix is consumed as the base amount. -/
theorem C2_calculateVAT_spec :
    (∀ a : ℚ, 0 ≤ a → calculateVAT a = roundTo2dp (a * 0.075)) ∧
    calculateVAT 0 = 0 ∧
    processCSV "report.csv" "2024-01-01, 5000.50, \"Fuel purchase\"" =
      [{ date := none, type := "VAT", amount := calculateVAT 2024,
         details := "Fuel purchase" }] := by
  refine ⟨fun a _ => rfl, by norm_num [calculateVAT, jsRound], ?_⟩
  norm_num +decide [processCSV, jsSplit, splitOnChar, jsTrim, jsIsSpace, jsIncludes,
    containsSeq, jsToLower, csvCell, scanCols, csvStep, cellNum, jsParseFloat, parseExp,
    digitsToNat, calculateVAT, jsRound, List.filterMap, Function.comp]

/-- Claim C2, witness: the amended theorem applied at the concrete amount 40. -/
theorem C2_calculateVAT_spec_witness :
    (0 : ℚ) ≤ 40 ∧ calculateVAT 40 = roundTo2dp (40 * 0.075) :=
  ⟨by norm_num, C2_calculateVAT_spec.1 40 (by norm_num)⟩

/-! ## Claim C3 -/

/-- Claim C3, counterexample: the legacy extraction variant
(`processReceiptEditable`, `part_000`) has no `[100, 10000000]` range
filter — it only requires `rawAmount > 0` — so recognized text `50.00`
yields a Candidate Line whose amount 50 is below 100. -/
theorem C3_legacy_pipeline_counterexample :
    processReceiptEditable "50.00" =
      ([⟨"Consumption", 50, "Receipt Entry"⟩] : List Candidate) ∧
    (50 : ℚ) < 100 := by
  constructor
  · norm_num +decide [processReceiptEditable, jsSplit, splitOnChar, jsMatchNumsOld,
      scanMatchesOld, scanMatchesOldFuel, take3or2, commaGroups, fracExact2, jsNumber,
      removeCommas, jsParseFloat, parseExp, digitsToNat, jsIsSpace, oldTypeOf, oldDetails,
      jsIncludes, containsSeq, jsToLower, jsTrim, removeFirst, removeFirstAux,
      List.filterMap, Function.comp]
  · norm_num

/-- Claim C3, amended: the `processReceiptWithOCR` pipeline (the one the
specification documents, `dashboard.js`) never produces a Candidate Line
with amount below 100 or above 10,000,000; the superseded
`processReceiptEditable` variant only filters `amount > 0` and can emit
amounts below 100. -/
theorem C3_ocr_amount_range (text : String) (c : Candidate)
    (h : c ∈ processReceiptWithOCR text) : 100 ≤ c.amount ∧ c.amount ≤ 10000000 := by
  simp only [processReceiptWithOCR, List.mem_flatMap, List.mem_filterMap] at h
  obtain ⟨line, -, numStr, -, hc⟩ := h
  rcases hp : jsParseFloat (removeCommas numStr) with - | a
  · simp only [hp] at hc
    exact Option.noConfusion hc
  · simp only [hp] at hc
    split_ifs at hc with hr
    all_goals
      first
        | exact Option.noConfusion hc
        | (rw [Option.some_inj] at hc
           subst hc
           exact hr)

/-- Claim C3, witness: the range theorem applied to the candidate that the
pipeline extracts from the recognized text `Lunch 700`. -/
theorem C3_ocr_amount_range_witness :
    ({ type := "Consumption", amount := 700, details := "Lunch" } : Candidate) ∈
        processReceiptWithOCR "Lunch 700" ∧
      (100 : ℚ) ≤ 700 ∧ (700 : ℚ) ≤ 10000000 := by
  have hm : ({ type := "Consumption", amount := 700, details := "Lunch" } : Candidate) ∈
      processReceiptWithOCR "Lunch 700" := by
    norm_num +decide [processReceiptWithOCR, jsSplit, splitOnChar, jsMatchNums,
      scanMatches, scanMatchesFuel, fracPart, isDC, removeCommas, jsParseFloat, parseExp,
      digitsToNat, jsIsSpace, vatTokensTest, jsIncludes, containsSeq, jsToLower,
      ocrDetails, jsTake, jsTrim, collapseWs, collapseWsAux, replaceNonWord, isWordChar,
      removeFirst, removeFirstAux, List.filterMap, Function.comp]
  exact ⟨hm, C3_ocr_amount_range "Lunch 700" _ hm⟩

/-! ## Claim C4 -/

/-- Claim C4, counterexample: a single *selected* Candidate Line whose
edited amount field reads `0` produces no transaction — the handler's
`amount > 0` guard filters it — so N selected lines do not always produce
N transactions. -/
theorem C4_confirm_zero_amount_counterexample :
    (List.filter (fun l => l.selected)
        [({ selected := true, amountStr := "0", type := "Consumption",
            details := "Snack" } : EditedLine)]).length = 1 ∧
    confirmLines (fun _ => "")
        [{ selected := true, amountStr := "0", type := "Consumption",
           details := "Snack" }] = [] ∧
    (1 : ℕ) ≠ 0 := by
  refine ⟨by norm_num +decide [List.filter], ?_, by norm_num⟩
  norm_num +decide [confirmLines, confirmRow, jsParseFloat, parseExp, digitsToNat,
    jsIsSpace, List.filterMap, Function.comp]

/-- Claim C4, amended: a Candidate Line with `selected = false` contributes
no transaction (dropping unselected lines does not change the handler's
output), and the number of transactions committed equals the number of
lines that are selected *and* whose edited amount parses to a strictly
positive number — not the number of selected lines regardless of edits. -/
theorem C4_confirm_selected_spec (fmt : ℚ → String) (lines : List EditedLine) :
    confirmLines fmt lines = confirmLines fmt (lines.filter (fun l => l.selected)) ∧
      (confirmLines fmt lines).length =
        (lines.filter (fun l => l.selected && parsesPositive l.amountStr)).length := by
  constructor
  · refine filterMap_filter_of_isSome (confirmRow fmt) (fun l => l.selected) lines ?_
    intro l hl
    rw [confirmRow_isSome] at hl
    exact Bool.and_elim_left hl
  · rw [confirmLines, length_filterMap_eq]
    congr 1
    apply List.filter_congr
    intro l hl
    rw [confirmRow_isSome]

/-! ## Claim C5 -/

/-- Claim C5, counterexample: on the row `500,abcd,0.00` the source commits
details `0.00` — the *last* field with a falsy numeric reading (here the
zero-parsing `0.00`, which satisfies `!numVal`) — while the claim's rule
(first non-numeric field longer than 2 characters) picks `abcd`. -/
theorem C5_csv_details_counterexample :
    scanCols ["500", "abcd", "0.00"] = (500, "0.00") ∧
    specFirstDetail ["500", "abcd", "0.00"] = "abcd" ∧
    ("0.00" : String) ≠ "abcd" := by
  refine ⟨?_, ?_, by decide⟩
  · norm_num +decide [scanCols, csvStep, cellNum, jsParseFloat, parseExp, digitsToNat,
      jsIsSpace]
  · norm_num +decide [specFirstDetail, cellNum, jsParseFloat, parseExp, digitsToNat,
      jsIsSpace]

/-- Claim C5, amended: the amount is the value of the first column that
parses as a strictly positive number after stripping `₦` and commas (as
claimed), but the details are the *last* — not first — column that is
non-empty, has a falsy numeric reading (`NaN` *or zero*), and is longer
than 2 characters. -/
theorem C5_scanCols_characterization (cols : List String) :
    scanCols cols = (firstAmount cols, lastDetail cols) := by
  rw [scanCols, scanCols_go]
  simp [lastDetail]

/-! ## Claim C6 -/

/-- Claim C6: with identical reliefs, the PAYE annual tax is monotonically
non-decreasing in the gross income (progressive-schedule property). -/
theorem C6_paye_monotone (p n o g1 g2 : ℚ) (h0 : 0 ≤ g1) (h : g1 ≤ g2) :
    (calculatePAYE g1 p n o).annualTax ≤ (calculatePAYE g2 p n o).annualTax := by
  rw [calculatePAYE_annualTax_eq, calculatePAYE_annualTax_eq]
  refine jsRound_mono (payeBandTax_mono (max_le_max ?_ le_rfl))
  linarith

/-- Claim C6, witness: monotonicity applied at gross incomes 1,000,000 and
2,000,000 with zero reliefs. -/
theorem C6_paye_monotone_witness :
    (0 : ℚ) ≤ 1000000 ∧ (1000000 : ℚ) ≤ 2000000 ∧
      (calculatePAYE 1000000 0 0 0).annualTax ≤ (calculatePAYE 2000000 0 0 0).annualTax :=
  ⟨by norm_num, by norm_num,
    C6_paye_monotone 0 0 0 1000000 2000000 (by norm_num) (by norm_num)⟩

/-! ## Claim C7 -/

/-- Claim C7, counterexample: at gross income 250,106.875 with zero reliefs
the taxable income is 85.5 and the unrounded tax 5.985, so the source's
`monthlyTax = Math.round(tax / 12) = Math.round(0.49875) = 0`, while the
claim's `Math.round(annualTax / 12) = Math.round(6 / 12) = 1`. -/
theorem C7_monthlyTax_counterexample :
    (calculatePAYE 250106.875 0 0 0).monthlyTax = 0 ∧
    jsRound (((calculatePAYE 250106.875 0 0 0).annualTax : ℚ) / 12) = 1 ∧
    (0 : ℤ) ≠ 1 := by
  refine ⟨?_, ?_, by norm_num⟩ <;> norm_num [calculatePAYE, payeBandTax, jsRound]

/-- Claim C7, amended: `annualTax` and `monthlyTax` are rounded from the
same underlying exact tax value `t`: `annualTax = round t` and
`monthlyTax = round (t / 12)` — the division uses the unrounded tax, not
the returned integer `annualTax`. -/
theorem C7_monthlyTax_unrounded (g p n o : ℚ) :
    ∃ t : ℚ, (calculatePAYE g p n o).annualTax = jsRound t ∧
      (calculatePAYE g p n o).monthlyTax = jsRound (t / 12) :=
  ⟨payeBandTax (max (g - (p + n + o + (200000 + g * 0.2))) 0), rfl, rfl⟩

/-! ## Claim C8 -/

/-- Claim C8, counterexample: for the recognized line `a.b 500` the source
produces details `a b` — the regexp `replace(/[^\w\s]/g, ' ')` turns the
dot into a *space*, and `dashboard.js` substitutes the placeholder only for
the empty string — whereas the claim's recipe (strip the punctuation, then
placeholder when shorter than 3 characters) yields `Receipt Item`. -/
theorem C8_details_counterexample :
    processReceiptWithOCR "a.b 500" =
      ([⟨"Consumption", 500, "a b"⟩] : List Candidate) ∧
    ocrDetailsSpec "a.b 500" "500" = "Receipt Item" ∧
    ("a b" : String) ≠ "Receipt Item" := by
  refine ⟨?_, ?_, by decide⟩
  · norm_num +decide [processReceiptWithOCR, jsSplit, splitOnChar, jsMatchNums,
      scanMatches, scanMatchesFuel, fracPart, isDC, removeCommas, jsParseFloat, parseExp,
      digitsToNat, jsIsSpace, vatTokensTest, jsIncludes, containsSeq, jsToLower,
      ocrDetails, jsTake, jsTrim, collapseWs, collapseWsAux, replaceNonWord, isWordChar,
      removeFirst, removeFirstAux, List.filterMap, Function.comp]
  · norm_num +decide [ocrDetailsSpec, jsTake, jsTrim, collapseWs, collapseWsAux,
      removeFirst, removeFirstAux, jsIsSpace]

/-- Claim C8, amended: every Candidate Line's details equal `ocrDetails`
applied to its line and matched substring — i.e. the line with the first
occurrence of the match removed, every character that is neither a word
character (letter, digit, underscore) nor whitespace *replaced by a space*,
whitespace runs collapsed, trimmed, truncated to 50 characters, and the
placeholder substituted only when the result is empty. -/
theorem C8_details_correspondence (text : String) (c : Candidate)
    (h : c ∈ processReceiptWithOCR text) :
    ∃ line ∈ jsSplit '\n' text, ∃ numStr ∈ jsMatchNums line,
      c.details = ocrDetails line numStr := by
  simp only [processReceiptWithOCR, List.mem_flatMap, List.mem_filterMap] at h
  obtain ⟨line, hline, numStr, hnum, hc⟩ := h
  refine ⟨line, hline, numStr, hnum, ?_⟩
  rcases hp : jsParseFloat (removeCommas numStr) with - | a
  · simp only [hp] at hc
    exact Option.noConfusion hc
  · simp only [hp] at hc
    split_ifs at hc with hr
    all_goals
      first
        | exact Option.noConfusion hc
        | (rw [Option.some_inj] at hc
           subst hc
           rfl)

/-- Claim C8, witness: the correspondence applied to the candidate that the
pipeline extracts from the recognized text `Dinner 900`. -/
theorem C8_details_correspondence_witness :
    ({ type := "Consumption", amount := 900, details := "Dinner" } : Candidate) ∈
        processReceiptWithOCR "Dinner 900" ∧
      ∃ line ∈ jsSplit '\n' "Dinner 900", ∃ numStr ∈ jsMatchNums line,
        ({ type := "Consumption", amount := 900, details := "Dinner" } :
          Candidate).details = ocrDetails line numStr := by
  have hm : ({ type := "Consumption", amount := 900, details := "Dinner" } : Candidate) ∈
      processReceiptWithOCR "Dinner 900" := by
    norm_num +decide [processReceiptWithOCR, jsSplit, splitOnChar, jsMatchNums,
      scanMatches, scanMatchesFuel, fracPart, isDC, removeCommas, jsParseFloat, parseExp,
      digitsToNat, jsIsSpace, vatTokensTest, jsIncludes, containsSeq, jsToLower,
      ocrDetails, jsTake, jsTrim, collapseWs, collapseWsAux, replaceNonWord, isWordChar,
      removeFirst, removeFirstAux, List.filterMap, Function.comp]
  exact ⟨hm, C8_details_correspondence "Dinner 900" _ hm⟩

/-! ## Claim C9 -/

/-- Claim C9, counterexample: `addTransaction` validates nothing — a call
with amount `-5` stores a transaction with a negative amount, so the
invariant does not hold for every call sequence. -/
theorem C9_addTransaction_counterexample :
    runAdds [{ freshId := "id1", today := "2024-01-01", now := "t0",
               input := { date := none, type := "PAYE", amount := -5, details := "bad" } }]
        [] =
      [{ id := "id1", date := "2024-01-01", type := "PAYE", amount := -5,
         details := "bad", createdAt := "t0" }] ∧
    ¬ (0 : ℚ) ≤ -5 := by
  refine ⟨?_, by norm_num⟩
  norm_num [runAdds, addTransaction]

/-- Claim C9, amended: `addTransaction` stores the given type and amount
unchanged, so the invariant holds for a call sequence exactly when every
call supplies it: if each call's input has a non-negative amount and a type
among `PAYE`, `VAT`, `Consumption`, then every transaction stored from the
empty ledger satisfies the invariant. -/
theorem C9_ledger_invariant (calls : List AddCall)
    (hc : ∀ c ∈ calls, 0 ≤ c.input.amount ∧
      c.input.type ∈ (["PAYE", "VAT", "Consumption"] : List String)) :
    ∀ tx ∈ runAdds calls [], 0 ≤ tx.amount ∧
      tx.type ∈ (["PAYE", "VAT", "Consumption"] : List String) := by
  have main : ∀ (cs : List AddCall) (txs : List Transaction),
      (∀ tx ∈ txs, 0 ≤ tx.amount ∧
        tx.type ∈ (["PAYE", "VAT", "Consumption"] : List String)) →
      (∀ c ∈ cs, 0 ≤ c.input.amount ∧
        c.input.type ∈ (["PAYE", "VAT", "Consumption"] : List String)) →
      ∀ tx ∈ runAdds cs txs, 0 ≤ tx.amount ∧
        tx.type ∈ (["PAYE", "VAT", "Consumption"] : List String) := by
    intro cs
    induction cs with
    | nil =>
      intro txs h1 h2
      simpa [runAdds] using h1
    | cons c cs ih =>
      intro txs h1 h2
      rw [runAdds, List.foldl_cons]
      refine ih (addTransaction c txs) ?_ ?_
      · intro tx htx
        rw [addTransaction] at htx
        rcases List.mem_append.mp htx with hmem | hmem
        · exact h1 tx hmem
        · rw [List.mem_singleton] at hmem
          subst hmem
          exact h2 c (List.mem_cons_self c cs)
      · intro c2 hc2
        exact h2 c2 (List.mem_cons_of_mem c hc2)
  exact main calls [] (by simp) hc

/-- Claim C9, witness: the invariant applied to a one-call sequence with a
valid `VAT` input, at the stored transaction it produces. -/
theorem C9_ledger_invariant_witness :
    0 ≤ ({ id := "id1", date := "2024-01-01", type := "VAT", amount := 75,
           details := "ok", createdAt := "t0" } : Transaction).amount ∧
      ({ id := "id1", date := "2024-01-01", type := "VAT", amount := 75,
         details := "ok", createdAt := "t0" } : Transaction).type ∈
        (["PAYE", "VAT", "Consumption"] : List String) :=
  C9_ledger_invariant
    [{ freshId := "id1", today := "2024-01-01", now := "t0",
       input := { date := none, type := "VAT", amount := 75, details := "ok" } }]
    (by norm_num) _ (by norm_num [runAdds, addTransaction])

/-! ## Claim C10 -/

/-- Claim C10: `deleteTransaction id` removes exactly the stored
transactions whose id equals the given id — membership in the result is
membership in the original list together with a different id — and keeps
every other transaction unchanged in its original relative order (the
result is a sublist of the original). -/
theorem C10_deleteTransaction_spec (id : String) (txs : List Transaction) :
    (deleteTransaction id txs).Sublist txs ∧
      ∀ tx, tx ∈ deleteTransaction id txs ↔ tx ∈ txs ∧ tx.id ≠ id := by
  constructor
  · exact List.filter_sublist txs
  · intro tx
    simp [deleteTransaction, List.mem_filter]

end TaxTrack
